import Mathlib

/-!
Verification development for the htt-ml repository.

We shallowly embed the dataset-assembly pipeline
(`dataset/create_training_dataset.py`) and the model-architecture
constructors (`training/keras_models.py`) as Lean definitions, and prove
theorems checking the specification claims against the embedded code.
-/

/-! ## Skim selection expressions

`create_training_dataset.py`, line 83, composes the skim selection as the
string `({EVENT_BRANCH}%2=={NUM_FOLD})&&({CUT_STRING})` and hands it to
`TChain.CopyTree`, which keeps exactly the entries on which the expression
evaluates to a nonzero value.  We embed the expression fragment involved as
a small AST with the numeric semantics of `TTreeFormula`: comparisons and
boolean connectives evaluate to 1 (true) or 0 (false); `%` is integer
remainder on the (non-negative) event counter. -/

inductive TExpr : Type
  | branch (name : String)
  | lit (n : Nat)
  | emod (a b : TExpr)
  | eqE (a b : TExpr)
  | andE (a b : TExpr)
deriving Repr, DecidableEq

def TExpr.denote (v : String → Nat) : TExpr → Nat
  | .branch name => v name
  | .lit n => n
  | .emod a b => a.denote v % b.denote v
  | .eqE a b => if a.denote v = b.denote v then 1 else 0
  | .andE a b => if a.denote v ≠ 0 ∧ b.denote v ≠ 0 then 1 else 0

/-- Composition of the effective selection, mirroring line 83 of
`create_training_dataset.py`:
`"({EVENT_BRANCH}%2=={NUM_FOLD})&&({CUT_STRING})"`. -/
def composeCut (eventBranch : String) (numFold : Nat) (cut : TExpr) : TExpr :=
  .andE (.eqE (.emod (.branch eventBranch) (.lit 2)) (.lit numFold)) cut

/-- CopyTree keeps an entry iff the selection expression is nonzero on it. -/
def passes (v : String → Nat) (e : TExpr) : Bool :=
  e.denote v != 0

theorem passes_composeCut (eventBranch : String) (f : Nat) (cut : TExpr)
    (v : String → Nat) :
    passes v (composeCut eventBranch f cut) = true ↔
      (v eventBranch % 2 = f ∧ passes v cut = true) := by
  simp only [passes, composeCut, TExpr.denote, bne_iff_ne, ne_eq]
  by_cases h1 : v eventBranch % 2 = f <;>
    by_cases h2 : cut.denote v = 0 <;>
    simp [h1, h2]

/-- C1: the effective selection applied to the target chain is the
conjunction `(event_branch mod 2 == f) AND (cut_string)`; an event belongs
to fold `f` iff `event_branch mod 2 == f`, so the two fold selections are
disjoint and (ignoring cut exclusions) their union covers every event. -/
theorem fold_selection_conjunction (eventBranch : String) (cut : TExpr)
    (v : String → Nat) (f : Nat) (_hf : f < 2) :
    (passes v (composeCut eventBranch f cut) = true ↔
      (v eventBranch % 2 = f ∧ passes v cut = true)) ∧
    ¬(passes v (composeCut eventBranch 0 cut) = true ∧
      passes v (composeCut eventBranch 1 cut) = true) ∧
    (passes v cut = true →
      passes v (composeCut eventBranch 0 cut) = true ∨
      passes v (composeCut eventBranch 1 cut) = true) := by
  refine ⟨passes_composeCut eventBranch f cut v, ?_, ?_⟩
  · rintro ⟨h0, h1⟩
    rw [passes_composeCut] at h0 h1
    omega
  · intro hcut
    rcases Nat.mod_two_eq_zero_or_one (v eventBranch) with h | h
    · exact Or.inl ((passes_composeCut eventBranch 0 cut v).mpr ⟨h, hcut⟩)
    · exact Or.inr ((passes_composeCut eventBranch 1 cut v).mpr ⟨h, hcut⟩)

/-- Witness for `fold_selection_conjunction` at the event valuation that is
constantly 4, fold 0, and the cut `1` (always true). -/
theorem fold_selection_conjunction_witness :
    (0 : Nat) < 2 ∧
    ((passes (fun _ => 4) (composeCut "event" 0 (TExpr.lit 1)) = true ↔
      ((fun _ => 4 : String → Nat) "event" % 2 = 0 ∧
        passes (fun _ => 4) (TExpr.lit 1) = true)) ∧
    ¬(passes (fun _ => 4) (composeCut "event" 0 (TExpr.lit 1)) = true ∧
      passes (fun _ => 4) (composeCut "event" 1 (TExpr.lit 1)) = true) ∧
    (passes (fun _ => 4) (TExpr.lit 1) = true →
      passes (fun _ => 4) (composeCut "event" 0 (TExpr.lit 1)) = true ∨
      passes (fun _ => 4) (composeCut "event" 1 (TExpr.lit 1)) = true)) :=
  ⟨by decide, fold_selection_conjunction "event" (TExpr.lit 1) (fun _ => 4) 0 (by decide)⟩

/-! ## Alias stripping for friend targets

`create_training_dataset.py`, lines 87-89: for a friend target (`i != 0`)
the composed cut string is transformed by
`cut_string.replace("{}.".format(alias), "")`, i.e. Python string
replacement of the literal pattern `alias + "."` by the empty string.
Python `str.replace` deletes the left-to-right non-overlapping occurrences
of the pattern as a plain substring.  We embed it on character lists with a
scanner indexed by a fuel that bounds the number of positions examined; the
fuel never runs out when it starts at the length of the scanned list and
the pattern is non-empty, since each step consumes at least one character. -/

def leadsWith : List Char → List Char → Bool
  | [], _ => true
  | _ :: _, [] => false
  | c :: p, d :: s => c == d && leadsWith p s

def stripRun (p : List Char) : Nat → List Char → List Char
  | _, [] => []
  | 0, s => s
  | fuel + 1, d :: s =>
    if leadsWith p (d :: s) then
      stripRun p fuel ((d :: s).drop p.length)
    else
      d :: stripRun p fuel s

/-- Deletion of every left-to-right non-overlapping occurrence of the
pattern `p` in `s`: the semantics of Python `s.replace(p, "")` (for the
empty pattern with empty replacement Python returns `s` unchanged). -/
def stripAll (p s : List Char) : List Char :=
  match p with
  | [] => s
  | _ :: _ => stripRun p s.length s

/-- Embedding of `cut_string.replace("{}.".format(alias), "")` from lines
87-89 of `create_training_dataset.py`. -/
def stripAliasQualifier (aliasName cutString : String) : String :=
  ⟨stripAll (aliasName ++ ".").data cutString.data⟩

theorem leadsWith_append (l s : List Char) : leadsWith l (l ++ s) = true := by
  induction l with
  | nil => rfl
  | cons c p ih => simp [leadsWith, ih]

theorem stripRun_nil (p : List Char) (fuel : Nat) : stripRun p fuel [] = [] := by
  cases fuel <;> rfl

theorem stripRun_succ_cons (p : List Char) (fuel : Nat) (d : Char)
    (s : List Char) :
    stripRun p (fuel + 1) (d :: s) =
      if leadsWith p (d :: s) then
        stripRun p fuel ((d :: s).drop p.length)
      else
        d :: stripRun p fuel s := rfl

theorem stripRun_fuel (p : List Char) (hp : p ≠ []) :
    ∀ (fuel : Nat) (s : List Char), s.length ≤ fuel →
      stripRun p fuel s = stripRun p s.length s := by
  intro fuel
  induction fuel using Nat.strong_induction_on with
  | _ fuel ih =>
    intro s hs
    cases s with
    | nil => rw [stripRun_nil, stripRun_nil]
    | cons d s =>
      cases fuel with
      | zero => simp at hs
      | succ f =>
        have hps : 1 ≤ p.length := by
          cases p
          · exact absurd rfl hp
          · simp
        rw [stripRun_succ_cons, List.length_cons, stripRun_succ_cons]
        simp only [List.length_cons] at hs
        by_cases hc : leadsWith p (d :: s) = true
        · rw [if_pos hc, if_pos hc]
          have hd : ((d :: s).drop p.length).length ≤ s.length := by
            simp only [List.length_drop, List.length_cons]
            omega
          rw [ih f (Nat.lt_succ_self f) _ (le_trans hd (by omega)),
            ih s.length (by omega) _ hd]
        · rw [if_neg hc, if_neg hc,
            ih f (Nat.lt_succ_self f) s (by omega)]

/-- C6 counterexample: with friend aliases `b` (the target) and `ab`, and
the composed selection `(event%2==0)&&(ab.x>1)` qualifying a column only by
the *other* alias `ab`, stripping the target alias `b` textually rewrites
`ab.x` into `ax`: a qualification by another alias is not left unchanged. -/
theorem alias_strip_counterexample :
    stripAliasQualifier "b" "(event%2==0)&&(ab.x>1)" = "(event%2==0)&&(ax>1)" ∧
    ("(event%2==0)&&(ax>1)" : String) ≠ "(event%2==0)&&(ab.x>1)" := by
  constructor
  · decide
  · decide

/-- C6 amended: the stripping is plain textual replacement, deleting the
left-to-right non-overlapping occurrences of the literal substring
`alias + "."` anywhere in the composed selection string - characterised by:
an occurrence at the cursor is deleted and scanning resumes after it, a
character not starting an occurrence is kept, and the empty string maps to
itself.  It is not restricted to column qualifiers of the target alias, so
any other text containing that substring (including qualifications by other
aliases) is altered as well. -/
theorem alias_strip_textual (c : Char) (p s rest : List Char) (d : Char)
    (hnot : leadsWith (c :: p) (d :: rest) = false) :
    stripAll (c :: p) ((c :: p) ++ s) = stripAll (c :: p) s ∧
    stripAll (c :: p) (d :: rest) = d :: stripAll (c :: p) rest ∧
    stripAll (c :: p) [] = [] := by
  refine ⟨?_, ?_, rfl⟩
  · show stripRun (c :: p) ((c :: p) ++ s).length ((c :: p) ++ s) =
      stripRun (c :: p) s.length s
    have hcons : (c :: p) ++ s = c :: (p ++ s) := rfl
    rw [hcons, List.length_cons, stripRun_succ_cons,
      if_pos (show leadsWith (c :: p) (c :: (p ++ s)) = true from
        leadsWith_append (c :: p) s)]
    have hdrop : (c :: (p ++ s)).drop (c :: p).length = s := by
      show (p ++ s).drop p.length = s
      exact List.drop_left p s
    rw [hdrop, stripRun_fuel (c :: p) (by simp) (p ++ s).length s (by simp)]
  · show stripRun (c :: p) (d :: rest).length (d :: rest) =
      d :: stripRun (c :: p) rest.length rest
    rw [List.length_cons, stripRun_succ_cons, if_neg (by simp [hnot])]

/-- Witness for `alias_strip_textual` with the pattern `b.` applied around
the text `xy`. -/
theorem alias_strip_textual_witness :
    leadsWith ['b', '.'] ['x', 'y'] = false ∧
    (stripAll ['b', '.'] (['b', '.'] ++ ['y']) = stripAll ['b', '.'] ['y'] ∧
     stripAll ['b', '.'] ['x', 'y'] = 'x' :: stripAll ['b', '.'] ['y'] ∧
     stripAll ['b', '.'] [] = []) :=
  ⟨by decide, alias_strip_textual 'b' ['.'] ['y'] ['y'] 'x' (by decide)⟩

/-! ## Chain construction and the missing-file check

`create_training_dataset.py`, lines 49-56: for each declared filename the
path `os.path.join(basepath, filename)` is formed; if the path does not
exist a fatal-severity message is logged (`logger.fatal`, which only logs
and neither raises nor exits), and then - unconditionally - the path is
added to the chain via `chain.AddFile(path)`.  The embedding returns the
list of paths added to the chain together with the fatal log messages
emitted, in program order. -/

def joinPath (basepath filename : String) : String :=
  basepath ++ "/" ++ filename

def buildChain (pathExists : String → Bool) (basepath : String) :
    List String → List String × List String
  | [] => ([], [])
  | filename :: rest =>
    let path := joinPath basepath filename
    let r := buildChain pathExists basepath rest
    (path :: r.1,
      (if pathExists path then [] else ["File does not exist: " ++ path]) ++ r.2)

/-- C3 counterexample: with a single declared file that does not exist, the
chain is still built containing the missing file, and execution proceeds
past the check (only a fatal-severity log message is emitted). -/
theorem missing_file_chain_counterexample :
    buildChain (fun _ => false) "base" ["f.root"] =
      (["base/f.root"], ["File does not exist: base/f.root"]) := by
  decide

/-- C3 amended: a missing `(basepath, filename)` pair is logged as a fatal
diagnostic but is not fatal to control flow: every declared path, existing
or not, is added to the chain in declaration order, and execution
continues; the fatal log messages are exactly those for the non-existing
paths. -/
theorem missing_file_logged_not_fatal (pathExists : String → Bool)
    (basepath : String) (files : List String) :
    (buildChain pathExists basepath files).1 = files.map (joinPath basepath) ∧
    (buildChain pathExists basepath files).2 =
      (files.filter (fun f => !pathExists (joinPath basepath f))).map
        (fun f => "File does not exist: " ++ joinPath basepath f) := by
  induction files with
  | nil => exact ⟨rfl, rfl⟩
  | cons f rest ih =>
    cases h : pathExists (joinPath basepath f) <;>
      simp [buildChain, h, ih.1, ih.2, List.filter_cons]

/-! ## Per-target skim iteration

`create_training_dataset.py`, lines 58-97, one iteration of the target
loop: the output file is opened with `ROOT.TFile(path, "RECREATE")` (line
67), which creates the file on disk immediately; then the row count of
`chains[0]` - the base chain, regardless of the target index `i` - is
checked (line 69) and a fatal error is raised when it is zero; otherwise
`chains[i].CopyTree(cut)` evaluates the selection (line 92) and a fatal
error is raised when the skimmed result has zero rows (lines 94-97).  The
embedding records the files created, whether the selection was evaluated,
and the outcome. -/

def emptyChainMsg : String := "Chain (before skimming) does not contain any events."

def emptySelectionMsg : String := "Chain (after skimming) does not contain any events."

structure TargetResult (α : Type) where
  createdFiles : List String
  selectionEvaluated : Bool
  result : Except String (List α)

def targetIteration {α : Type} (chains : List (List α)) (i : Nat)
    (outPath : String) (sel : α → Bool) : TargetResult α :=
  if 0 < (chains.headD []).length then
    let skimmed := (chains.getD i []).filter sel
    if 0 < skimmed.length then
      ⟨[outPath], true, .ok skimmed⟩
    else
      ⟨[outPath], true, .error emptySelectionMsg⟩
  else
    ⟨[outPath], false, .error emptyChainMsg⟩

/-- C4 counterexample: a selection with zero matching rows raises the fatal
empty-selection error, but the output file at the OutputUnit path has
already been created by the RECREATE open on line 67, so a file does exist
at that path as a result of the iteration. -/
theorem empty_selection_file_counterexample :
    (targetIteration (α := Unit) [[()]] 0 "out/merge_fold0_p.root"
        (fun _ => false)).result = .error emptySelectionMsg ∧
    (targetIteration (α := Unit) [[()]] 0 "out/merge_fold0_p.root"
        (fun _ => false)).createdFiles = ["out/merge_fold0_p.root"] := by
  constructor
  · rfl
  · rfl

/-- C4 amended: whenever the base chain is non-empty and the post-selection
result has zero rows, the iteration raises the fatal empty-selection error
and writes no tree, but an (empty) output file has already been created at
the OutputUnit path by the RECREATE open that precedes the selection. -/
theorem empty_selection_raises (α : Type) (chains : List (List α)) (i : Nat)
    (outPath : String) (sel : α → Bool)
    (hbase : 0 < (chains.headD []).length)
    (hempty : (chains.getD i []).filter sel = []) :
    targetIteration chains i outPath sel =
      ⟨[outPath], true, .error emptySelectionMsg⟩ := by
  rw [targetIteration, if_pos hbase]
  simp only [hempty]
  rfl

/-- Witness for `empty_selection_raises` on a one-row base chain and a
selection rejecting every row. -/
theorem empty_selection_raises_witness :
    0 < ((([[()]] : List (List Unit))).headD []).length ∧
    ((([[()]] : List (List Unit))).getD 0 []).filter (fun _ => false) = [] ∧
    targetIteration (α := Unit) [[()]] 0 "out/u.root" (fun _ => false) =
      ⟨["out/u.root"], true, .error emptySelectionMsg⟩ :=
  ⟨by decide, by rfl,
    empty_selection_raises Unit [[()]] 0 "out/u.root" (fun _ => false)
      (by decide) (by rfl)⟩

/-- C5 counterexample: for friend target `i = 1` whose own chain is empty
before selection (while the base chain has one row), no fatal error is
raised before evaluating the selection: the pre-selection check inspects
`chains[0]` only, the selection is evaluated, and the error that is
eventually raised is the post-selection one. -/
theorem empty_friend_chain_counterexample :
    targetIteration (α := Unit) [[()], []] 1 "out/a_merge_fold0_p.root"
        (fun _ => true) =
      ⟨["out/a_merge_fold0_p.root"], true, .error emptySelectionMsg⟩ ∧
    emptySelectionMsg ≠ emptyChainMsg := by
  constructor
  · rfl
  · decide

/-- C5 amended: the pre-selection zero-row check inspects the base chain
(index 0), not the target chain `i`: when the base chain is empty the fatal
pre-selection error is raised immediately, before the selection is
evaluated, for every target index; when the base chain is non-empty the
selection is always evaluated, whatever the row count of target chain `i`. -/
theorem pre_selection_check_base_chain (α : Type) (rest : List (List α))
    (i : Nat) (outPath : String) (sel : α → Bool) :
    targetIteration ([] :: rest) i outPath sel =
      ⟨[outPath], false, .error emptyChainMsg⟩ ∧
    ∀ (r : α) (c0 : List α),
      (targetIteration ((r :: c0) :: rest) i outPath sel).selectionEvaluated =
        true := by
  constructor
  · rfl
  · intro r c0
    rw [targetIteration, if_pos (by simp)]
    simp only []
    split <;> rfl

/-! ## Training-weight injection

`create_training_dataset.py`, lines 107-121: only when the target index is
0 (the base chain), a `TTreeFormula` is built from the per-process
`weight_string`, a one-cell single-precision buffer is initialised to
-999.0, a new branch named `config["training_weight_branch"]` with leaf
descriptor `config["training_weight_branch"] + "/F"` (single-precision
float) is created on the skimmed tree, and then for every entry of the
skimmed tree, in entry order, the buffer is overwritten with the formula
value on that entry and the branch is filled from the buffer.  We model the
numeric domain of the formula by the rationals (abstracting the machine
floating-point arithmetic, which preserves the distinguished sentinel value
-999.0 exactly) and the formula itself by a per-row evaluation function. -/

structure WeightBranch where
  name : String
  descriptor : String

/-- Branch creation call of lines 115-117:
`chain_skimmed.Branch(twb, training_weight, twb + "/F")`. -/
def makeWeightBranch (trainingWeightBranch : String) : WeightBranch :=
  ⟨trainingWeightBranch, trainingWeightBranch ++ "/F"⟩

/-- Fill loop of lines 118-121: the buffer cell starts at the sentinel and
is overwritten with the formula value of the current row before each fill,
so the value appended for a row is the formula evaluated on that row. -/
def fillLoop {α : Type} (w : α → Rat) : List α → Rat → List Rat
  | [], _ => []
  | r :: rest, _cell => w r :: fillLoop w rest (w r)

/-- Guard of line 107: the injection happens only for target index 0. -/
def injectTrainingWeight {α : Type} (i : Nat) (w : α → Rat) (rows : List α) :
    Option (List Rat) :=
  if i = 0 then some (fillLoop w rows (-999)) else none

theorem fillLoop_eq_map {α : Type} (w : α → Rat) (rows : List α) (cell : Rat) :
    fillLoop w rows cell = rows.map w := by
  induction rows generalizing cell with
  | nil => rfl
  | cons r rest ih => simp [fillLoop, ih]

/-- C2: the training-weight column is injected only for target source index
0; every row of the post-selection table receives, in row order, the value
of the weight formula on that row (so no row retains the -999.0 sentinel
unless the formula itself yields it); the branch is named by
`training_weight_branch` with the single-precision leaf descriptor `/F`. -/
theorem training_weight_injection {α : Type} (j : Nat) (w : α → Rat)
    (rows : List α) (twb : String) :
    injectTrainingWeight 0 w rows = some (rows.map w) ∧
    injectTrainingWeight (j + 1) w rows = none ∧
    (makeWeightBranch twb).name = twb ∧
    (makeWeightBranch twb).descriptor = twb ++ "/F" ∧
    fillLoop w rows (-999) = rows.map w := by
  refine ⟨?_, ?_, rfl, rfl, fillLoop_eq_map w rows (-999)⟩
  · rw [injectTrainingWeight, if_pos rfl, fillLoop_eq_map]
  · rw [injectTrainingWeight, if_neg (Nat.succ_ne_zero j)]

/-! ## Fold-level control flow: output units and the hadd merge

`create_training_dataset.py`, `main`: per fold, `created_files` collects -
per process, per source index - the OutputUnit paths (lines 57-65); after
the process loop, the merge loop (lines 130-143) iterates `for i, chain in
enumerate(chains)` over the variable `chains`, which is bound only inside
the per-process source loop, and calls
`subprocess.call(["hadd", "-f", output_file] + sub_created_files)` with
`sub_created_files = [process_files[i] for process_files in created_files]`.
When the processes mapping is non-empty, the leaked `chains` has exactly
one entry per source (base plus friends); when it is empty, the merge loop
raises a `NameError` before any merge invocation.  `foldRun` models the
fold-level trace on the path where every per-target iteration succeeds. -/

structure DatasetConfig where
  base_path : String
  friend_dirs : List String
  friend_aliases : List String
  tree_path : String
  output_path : String
  output_filename : String
  event_branch : String
  training_weight_branch : String
  processes : List String

/-- Source directories, lines 42-44: `[base_path] + friend_dirs`. -/
def basepaths (cfg : DatasetConfig) : List String :=
  cfg.base_path :: cfg.friend_dirs

def nSources (cfg : DatasetConfig) : Nat :=
  (basepaths cfg).length

/-- OutputUnit path for (process, source index, fold), lines 57-65. -/
def outputUnitPath (cfg : DatasetConfig) (numFold : Nat) (process : String)
    (i : Nat) : String :=
  if i = 0 then
    joinPath cfg.output_path
      ("merge_fold" ++ toString numFold ++ "_" ++ process ++ ".root")
  else
    joinPath cfg.output_path
      (cfg.friend_aliases.getD (i - 1) "" ++ "_merge_fold" ++
        toString numFold ++ "_" ++ process ++ ".root")

/-- Merged-output path for (source index, fold), lines 133-139. -/
def mergedOutputPath (cfg : DatasetConfig) (numFold : Nat) (i : Nat) : String :=
  if i = 0 then
    joinPath cfg.output_path
      ("fold" ++ toString numFold ++ "_" ++ cfg.output_filename)
  else
    joinPath cfg.output_path
      (cfg.friend_aliases.getD (i - 1) "" ++ "_fold" ++ toString numFold ++
        "_" ++ cfg.output_filename)

/-- OutputUnit paths written for one process, in source order. -/
def processWrites (cfg : DatasetConfig) (numFold : Nat) (process : String) :
    List String :=
  (List.range (nSources cfg)).map (outputUnitPath cfg numFold process)

/-- Contents of `created_files` after the process loop of one fold. -/
def foldWrites (cfg : DatasetConfig) (numFold : Nat) : List (List String) :=
  cfg.processes.map (processWrites cfg numFold)

/-- Command lines of the merge loop, lines 133-142: one `hadd -f` call per
source index, over the per-process OutputUnits of that source. -/
def mergeCalls (cfg : DatasetConfig) (numFold : Nat)
    (created : List (List String)) : List (List String) :=
  (List.range (nSources cfg)).map (fun i =>
    ["hadd", "-f", mergedOutputPath cfg numFold i] ++
      created.map (fun processFiles => processFiles.getD i ""))

inductive TraceEv : Type
  | write (path : String)
  | merge (args : List String)

def TraceEv.isWrite : TraceEv → Bool
  | .write _ => true
  | .merge _ => false

def TraceEv.isMerge : TraceEv → Bool
  | .write _ => false
  | .merge _ => true

/-- Fold-level event trace and outcome, on the path where every per-target
iteration succeeds: all per-process writes happen first, in loop order;
then the merge loop runs - or raises a `NameError` when the processes
mapping is empty, because `chains` was never bound. -/
def foldRun (cfg : DatasetConfig) (numFold : Nat) :
    List TraceEv × Except String Unit :=
  let created := foldWrites cfg numFold
  let writes := created.flatten.map TraceEv.write
  if created.isEmpty then
    (writes, .error "NameError: name chains is not defined")
  else
    (writes ++ (mergeCalls cfg numFold created).map TraceEv.merge, .ok ())

/-- Modelled from the spec: the source repository invokes the external
merge tool `hadd` as a black box; per the specification, `hadd -f`
overwrites the output path and concatenates the rows of its input files
in order (simple concatenation, no deduplication). -/
def haddMerge {α : Type} (contents : String → List α)
    (inputs : List String) : List α :=
  (inputs.map contents).flatten

theorem getD_range_map {β : Type} (f : Nat → β) (n i : Nat) (h : i < n)
    (d : β) : ((List.range n).map f).getD i d = f i := by
  rw [List.getD_eq_getElem?_getD, List.getElem?_map, List.getElem?_range h]
  rfl

theorem trace_take_drop (ws : List String) (cs : List (List String)) :
    ((ws.map TraceEv.write) ++ (cs.map TraceEv.merge)).takeWhile
        TraceEv.isWrite = ws.map TraceEv.write ∧
    ((ws.map TraceEv.write) ++ (cs.map TraceEv.merge)).dropWhile
        TraceEv.isWrite = cs.map TraceEv.merge ∧
    ((ws.map TraceEv.write) ++ (cs.map TraceEv.merge)).countP
        (fun e => TraceEv.isMerge e) = cs.length := by
  induction ws with
  | nil =>
    cases cs with
    | nil => exact ⟨rfl, rfl, rfl⟩
    | cons c cs =>
      refine ⟨rfl, rfl, ?_⟩
      simp [List.countP_map, List.countP_true, TraceEv.isMerge,
        Function.comp]
  | cons w ws ih =>
    refine ⟨?_, ?_, ?_⟩
    · simp [List.takeWhile_cons, TraceEv.isWrite, ih.1]
    · simp [List.dropWhile_cons, TraceEv.isWrite, ih.2.1]
    · rw [List.map_cons, List.cons_append, List.countP_cons, ih.2.2]
      rfl

/-- Configuration with a given non-empty ordered processes mapping. -/
def withProcesses (cfg : DatasetConfig) (p0 : String) (ps : List String) :
    DatasetConfig :=
  { cfg with processes := p0 :: ps }

/-- C7: with a non-empty processes mapping, the merge loop runs after all
per-process writes of the fold, invoking `hadd -f` exactly once per source
index, each time on the merged-output path for that (source, fold) followed
by exactly the per-process OutputUnit paths of that source, in process
order; and the merged output for (source 0, fold 0) is the row-wise
concatenation of the per-process base OutputUnits for fold 0. -/
theorem merge_once_per_source_fold {α : Type} (cfg : DatasetConfig)
    (p0 : String) (ps : List String) (numFold : Nat)
    (contents : String → List α) :
    mergeCalls (withProcesses cfg p0 ps) numFold
        (foldWrites (withProcesses cfg p0 ps) numFold) =
      (List.range (nSources (withProcesses cfg p0 ps))).map (fun i =>
        "hadd" :: "-f" :: mergedOutputPath (withProcesses cfg p0 ps) numFold i ::
          (p0 :: ps).map (fun process =>
            outputUnitPath (withProcesses cfg p0 ps) numFold process i)) ∧
    (foldRun (withProcesses cfg p0 ps) numFold).1.takeWhile TraceEv.isWrite =
      ((foldWrites (withProcesses cfg p0 ps) numFold).flatten).map
        TraceEv.write ∧
    (foldRun (withProcesses cfg p0 ps) numFold).1.dropWhile TraceEv.isWrite =
      (mergeCalls (withProcesses cfg p0 ps) numFold
        (foldWrites (withProcesses cfg p0 ps) numFold)).map TraceEv.merge ∧
    (foldRun (withProcesses cfg p0 ps) numFold).1.countP
      (fun e => TraceEv.isMerge e) = nSources (withProcesses cfg p0 ps) ∧
    (foldRun (withProcesses cfg p0 ps) numFold).2 = Except.ok () ∧
    haddMerge contents ((p0 :: ps).map (fun process =>
        outputUnitPath (withProcesses cfg p0 ps) 0 process 0)) =
      ((p0 :: ps).map (fun process =>
        contents (outputUnitPath (withProcesses cfg p0 ps) 0 process 0))).flatten := by
  have h1 : mergeCalls (withProcesses cfg p0 ps) numFold
      (foldWrites (withProcesses cfg p0 ps) numFold) =
      (List.range (nSources (withProcesses cfg p0 ps))).map (fun i =>
        "hadd" :: "-f" ::
          mergedOutputPath (withProcesses cfg p0 ps) numFold i ::
          (p0 :: ps).map (fun process =>
            outputUnitPath (withProcesses cfg p0 ps) numFold process i)) := by
    unfold mergeCalls
    apply List.map_congr_left
    intro i hi
    rw [List.mem_range] at hi
    have hinner : (foldWrites (withProcesses cfg p0 ps) numFold).map
        (fun processFiles => processFiles.getD i "") =
        (p0 :: ps).map (fun process =>
          outputUnitPath (withProcesses cfg p0 ps) numFold process i) := by
      show ((p0 :: ps).map
          (processWrites (withProcesses cfg p0 ps) numFold)).map
          (fun processFiles => processFiles.getD i "") = _
      rw [List.map_map]
      apply List.map_congr_left
      intro process _
      show (processWrites (withProcesses cfg p0 ps) numFold process).getD i "" =
        outputUnitPath (withProcesses cfg p0 ps) numFold process i
      unfold processWrites
      exact getD_range_map _ _ _ hi _
    rw [hinner]
    rfl
  have hcond : ¬((foldWrites (withProcesses cfg p0 ps) numFold).isEmpty = true) := by
    show ¬(((p0 :: ps).map
      (processWrites (withProcesses cfg p0 ps) numFold)).isEmpty = true)
    simp
  have hfr : foldRun (withProcesses cfg p0 ps) numFold =
      (((foldWrites (withProcesses cfg p0 ps) numFold).flatten).map
          TraceEv.write ++
        (mergeCalls (withProcesses cfg p0 ps) numFold
          (foldWrites (withProcesses cfg p0 ps) numFold)).map TraceEv.merge,
       Except.ok ()) := by
    simp only [foldRun]
    rw [if_neg hcond]
  refine ⟨h1, ?_, ?_, ?_, ?_, ?_⟩
  · rw [hfr]
    exact (trace_take_drop _ _).1
  · rw [hfr]
    exact (trace_take_drop _ _).2.1
  · rw [hfr]
    show (((foldWrites (withProcesses cfg p0 ps) numFold).flatten).map
        TraceEv.write ++
      (mergeCalls (withProcesses cfg p0 ps) numFold
        (foldWrites (withProcesses cfg p0 ps) numFold)).map
        TraceEv.merge).countP (fun e => TraceEv.isMerge e) = _
    rw [(trace_take_drop _ _).2.2]
    unfold mergeCalls
    rw [List.length_map, List.length_range]
  · rw [hfr]
  · rw [haddMerge, List.map_map]
    rfl

/-- C10: with an empty processes mapping the fold produces no writes and no
merge invocations at all: the merge loop fails with the undefined-name
error on `chains`, which is bound only inside the per-process loop, before
any merge-tool invocation. -/
theorem empty_processes_no_merge (cfg : DatasetConfig) (numFold : Nat) :
    foldRun { cfg with processes := [] } numFold =
      ([], .error "NameError: name chains is not defined") ∧
    ((foldRun { cfg with processes := [] } numFold).1.countP
      (fun e => TraceEv.isMerge e)) = 0 := by
  constructor <;> rfl

/-! ## Model architectures and the inference-graph reconstruction

`training/keras_models.py`: `smhtt_dropout_tanh` (lines 147-162) stacks,
for `nodes` in `[200] * 2`, a Dense(nodes) layer followed by
Activation("tanh") and a Dropout layer (identity at inference time), then
Dense(num_outputs) followed by Activation("softmax"); `smhtt_dropout`
(lines 129-144) is the same shape with "relu" in place of "tanh".  We
summarise a training-time architecture as the list of (units, activation)
of its Dense layers.  The reconstruction functions
`smhtt_dropout_tanh_tensorflow` (lines 165-184) and
`smhtt_dropout_tensorflow` (lines 187-206) read the trained weights by
name - `dense_1/kernel:0`, `dense_1/bias:0`, ..., `dense_3/bias:0`,
1-indexed - and compute softmax(b3 + act(b2 + act(b1 + x*w1)*w2)*w3) with
act = tanh resp. relu; the width of each reconstructed layer is the column
count of the kernel it reads. -/

inductive Activation : Type
  | relu
  | tanh
  | softmax
deriving Repr, DecidableEq

def smhtt_dropout_tanh_arch (num_outputs : Nat) : List (Nat × Activation) :=
  ((List.replicate 2 200).map (fun nodes => (nodes, Activation.tanh))) ++
    [(num_outputs, Activation.softmax)]

def smhtt_dropout_arch (num_outputs : Nat) : List (Nat × Activation) :=
  ((List.replicate 2 200).map (fun nodes => (nodes, Activation.relu))) ++
    [(num_outputs, Activation.softmax)]

/-- Modelled from the spec: the model-builder library names the n-th Dense
layer of a model `dense_n` (1-indexed) and exposes its weights under
`dense_n/kernel:0` (shape: fan-in times units) and `dense_n/bias:0`.  This
association list maps each kernel name of a trained model with the given
Dense-layer list to the column count (units) of that kernel, starting from
layer index `n`. -/
def kerasKernelCols (arch : List (Nat × Activation)) (n : Nat) :
    List (String × Nat) :=
  match arch with
  | [] => []
  | (units, _) :: rest =>
    ("dense_" ++ toString n ++ "/kernel:0", units) ::
      kerasKernelCols rest (n + 1)

/-- Weight names read by `smhtt_dropout_tanh_tensorflow`, lines 174-179 (in
program order kernel and bias of layers 1, 2, 3). -/
def smhtt_dropout_tanh_tensorflow_reads : List String :=
  ["dense_1/kernel:0", "dense_1/bias:0", "dense_2/kernel:0", "dense_2/bias:0",
   "dense_3/kernel:0", "dense_3/bias:0"]

/-- Weight names read by `smhtt_dropout_tensorflow`, lines 196-201. -/
def smhtt_dropout_tensorflow_reads : List String :=
  ["dense_1/kernel:0", "dense_1/bias:0", "dense_2/kernel:0", "dense_2/bias:0",
   "dense_3/kernel:0", "dense_3/bias:0"]

/-- Per-layer weight names under the library naming convention for a model
with `k` Dense layers, 1-indexed. -/
def denseLayerNames (k : Nat) : List String :=
  ((List.range k).map (fun n =>
    ["dense_" ++ toString (n + 1) ++ "/kernel:0",
     "dense_" ++ toString (n + 1) ++ "/bias:0"])).flatten

/-- Architecture realised by `smhtt_dropout_tanh_tensorflow`, lines
181-183: tanh, tanh, softmax over the three kernels read by name. -/
def smhtt_dropout_tanh_tensorflow_arch (kernelCols : String → Option Nat) :
    Option (List (Nat × Activation)) :=
  match kernelCols "dense_1/kernel:0", kernelCols "dense_2/kernel:0",
      kernelCols "dense_3/kernel:0" with
  | some u1, some u2, some u3 =>
    some [(u1, Activation.tanh), (u2, Activation.tanh),
      (u3, Activation.softmax)]
  | _, _, _ => none

/-- Architecture realised by `smhtt_dropout_tensorflow`, lines 203-205:
relu, relu, softmax over the three kernels read by name. -/
def smhtt_dropout_tensorflow_arch (kernelCols : String → Option Nat) :
    Option (List (Nat × Activation)) :=
  match kernelCols "dense_1/kernel:0", kernelCols "dense_2/kernel:0",
      kernelCols "dense_3/kernel:0" with
  | some u1, some u2, some u3 =>
    some [(u1, Activation.relu), (u2, Activation.relu),
      (u3, Activation.softmax)]
  | _, _, _ => none

/-- C8: applied to the weights of the corresponding trained model, each
reconstruction realises exactly the training-time architecture: the same
Dense-layer count, the same widths and the same activation sequence; and
the names it reads are exactly the convention names `dense_n/kernel`,
`dense_n/bias` for the three layers, 1-indexed. -/
theorem tensorflow_reconstruction_matches (num_outputs : Nat) :
    smhtt_dropout_tanh_tensorflow_arch (fun name =>
        (kerasKernelCols (smhtt_dropout_tanh_arch num_outputs) 1).lookup name) =
      some (smhtt_dropout_tanh_arch num_outputs) ∧
    smhtt_dropout_tensorflow_arch (fun name =>
        (kerasKernelCols (smhtt_dropout_arch num_outputs) 1).lookup name) =
      some (smhtt_dropout_arch num_outputs) ∧
    smhtt_dropout_tanh_tensorflow_reads = denseLayerNames 3 ∧
    smhtt_dropout_tensorflow_reads = denseLayerNames 3 ∧
    (smhtt_dropout_tanh_arch num_outputs).length = 3 ∧
    (smhtt_dropout_arch num_outputs).length = 3 := by
  refine ⟨?_, ?_, by decide, by decide, rfl, rfl⟩
  · rfl
  · rfl

/-! ## Name resolution for the reconstruction functions

`training/keras_models.py`, lines 1-5, binds at module level: `Sequential`
and `load_model` (from keras.models), the star-import contents of
keras.layers and of keras.optimizers, `l2` (from keras.regularizers) and
`np` (numpy).  The name `tf` is never bound.  The bodies of
`smhtt_dropout_tanh_tensorflow` and `smhtt_dropout_tensorflow` reference,
among their parameters and locals, the global names `print` (a Python
builtin), `np` (line 171 resp. 193) and `tf` (line 174 resp. 196); Python
resolves each global reference against the module globals and the builtins
when the referencing statement executes, raising `NameError` at the first
unbound one.  The star-import contents are abstracted by an `exports`
function on module names. -/

inductive PyImport : Type
  | fromList (module : String) (names : List String)
  | fromStar (module : String)
  | importAs (module shortName : String)

def kerasModelsImports : List PyImport :=
  [.fromList "keras.models" ["Sequential", "load_model"],
   .fromStar "keras.layers",
   .fromStar "keras.optimizers",
   .fromList "keras.regularizers" ["l2"],
   .importAs "numpy" "np"]

def importBindings (exports : String → List String) : PyImport → List String
  | .fromList _ names => names
  | .fromStar m => exports m
  | .importAs _ shortName => [shortName]

/-- Names resolvable from the bodies of functions in `keras_models.py`:
the Python builtins used there plus everything the module-level imports
bind. -/
def moduleGlobals (exports : String → List String) : List String :=
  "print" :: ((kerasModelsImports.map (importBindings exports)).flatten)

/-- Global names referenced by the body of
`smhtt_dropout_tanh_tensorflow`, in first-execution order. -/
def smhtt_dropout_tanh_tensorflow_globalRefs : List String :=
  ["print", "np", "tf"]

/-- Global names referenced by the body of `smhtt_dropout_tensorflow`, in
first-execution order. -/
def smhtt_dropout_tensorflow_globalRefs : List String :=
  ["print", "np", "tf"]

def firstUnboundRef (globals refs : List String) : Option String :=
  refs.find? (fun n => !(globals.contains n))

/-- Calling one of the reconstruction functions: the arguments play no role
in global-name resolution; execution runs until the first statement whose
global name is unbound, which raises `NameError` there. -/
def callReconstruction {α β : Type} (_inputPlaceholder : α)
    (_kerasModel : β) (globals refs : List String) : Except String Unit :=
  match firstUnboundRef globals refs with
  | some n => .error ("NameError: name " ++ n ++ " is not defined")
  | none => .ok ()

theorem firstUnboundRef_print_np_tf (globals : List String)
    (hprint : "print" ∈ globals) (hnp : "np" ∈ globals)
    (htf : "tf" ∉ globals) :
    firstUnboundRef globals ["print", "np", "tf"] = some "tf" := by
  unfold firstUnboundRef
  rw [List.find?_cons_of_neg, List.find?_cons_of_neg, List.find?_cons_of_pos]
  · simp [htf]
  · simp [hnp]
  · simp [hprint]

/-- C9: for every input placeholder and every trained model, and whatever
names the keras star-imports bind (as long as neither `keras.layers` nor
`keras.optimizers` exports a name `tf`), calling either reconstruction
function raises `NameError` on `tf`, which is referenced but never bound in
the module - so neither function can return an inference graph. -/
theorem reconstruction_raises_nameerror {α β : Type} (inputPlaceholder : α)
    (kerasModel : β) (exports : String → List String)
    (hl : "tf" ∉ exports "keras.layers")
    (ho : "tf" ∉ exports "keras.optimizers") :
    callReconstruction inputPlaceholder kerasModel (moduleGlobals exports)
        smhtt_dropout_tanh_tensorflow_globalRefs =
      .error "NameError: name tf is not defined" ∧
    callReconstruction inputPlaceholder kerasModel (moduleGlobals exports)
        smhtt_dropout_tensorflow_globalRefs =
      .error "NameError: name tf is not defined" := by
  have hprint : "print" ∈ moduleGlobals exports := List.mem_cons_self _ _
  have hnp : "np" ∈ moduleGlobals exports := by
    simp [moduleGlobals, kerasModelsImports, importBindings]
  have htf : "tf" ∉ moduleGlobals exports := by
    simp [moduleGlobals, kerasModelsImports, importBindings, hl, ho]
  constructor <;>
    · show callReconstruction _ _ _ ["print", "np", "tf"] = _
      unfold callReconstruction
      rw [firstUnboundRef_print_np_tf _ hprint hnp htf]
      rfl

/-- Witness for `reconstruction_raises_nameerror` with unit arguments and
star-imports binding the usual keras layer and optimizer names. -/
theorem reconstruction_raises_nameerror_witness :
    "tf" ∉ (fun m => if m = "keras.layers" then ["Dense", "Activation", "Dropout"]
        else ["Adam", "Nadam"] : String → List String) "keras.layers" ∧
    "tf" ∉ (fun m => if m = "keras.layers" then ["Dense", "Activation", "Dropout"]
        else ["Adam", "Nadam"] : String → List String) "keras.optimizers" ∧
    (callReconstruction () () (moduleGlobals (fun m =>
        if m = "keras.layers" then ["Dense", "Activation", "Dropout"]
        else ["Adam", "Nadam"]))
        smhtt_dropout_tanh_tensorflow_globalRefs =
      .error "NameError: name tf is not defined" ∧
    callReconstruction () () (moduleGlobals (fun m =>
        if m = "keras.layers" then ["Dense", "Activation", "Dropout"]
        else ["Adam", "Nadam"]))
        smhtt_dropout_tensorflow_globalRefs =
      .error "NameError: name tf is not defined") :=
  ⟨by decide, by decide,
    reconstruction_raises_nameerror () ()
      (fun m => if m = "keras.layers" then ["Dense", "Activation", "Dropout"]
        else ["Adam", "Nadam"])
      (by decide) (by decide)⟩
